import Mathlib

/-!
Shallow embedding of `src/recognizer/agents/playwright/async_control.py`
(class `AsyncChallenger`) and proofs about its control loop.

The mutable instance fields (`retry_times`, `retried`, `dynamic`,
`captcha_token`) become an explicit state record `CState`.  The
environment (page, network responses, classifier results) is supplied as
oracle data, and the asynchronous methods become state-passing functions
with a fuel parameter for the unbounded recursion/loops.
-/

namespace Recognizer

/-- The mutable fields of an `AsyncChallenger` instance
(`__init__`, lines 23-30 of `async_control.py`). -/
structure CState where
  retry_times : Nat
  retried : Nat
  dynamic : Bool
  captcha_token : String
deriving DecidableEq

/-- A fresh instance as produced by `__init__`: `retried = 0`,
`dynamic = False`, `captcha_token = ""`. -/
def initState (retry_times : Nat) : CState :=
  { retry_times := retry_times, retried := 0, dynamic := false, captcha_token := "" }

/-- Boolean prefix test on character lists. -/
def isPrefixL : List Char → List Char → Bool
  | [], _ => true
  | _ :: _, [] => false
  | a :: as, b :: bs => a == b && isPrefixL as bs

/-- Boolean infix test on character lists. -/
def isInfixL (n : List Char) : List Char → Bool
  | [] => n.isEmpty
  | c :: cs => isPrefixL n (c :: cs) || isInfixL n cs

/-- Python `needle in haystack` substring test. -/
def strContains (needle hay : String) : Bool :=
  isInfixL needle.toList hay.toList

/-- Python `\s` character class (ASCII): space, tab, newline, carriage
return, vertical tab, form feed. -/
def pyWs (c : Char) : Bool :=
  c == ' ' || c == '\t' || c == '\n' || c == '\r' || c == '\x0b' || c == '\x0c'

/-- Drop the longest leading run of `\s` characters (models `\s*`). -/
def dropWsL : List Char → List Char
  | [] => []
  | c :: cs => if pyWs c then dropWsL cs else c :: cs

/-- Strip an exact literal from the front of a character list, returning
the remainder on success. -/
def stripLit : List Char → List Char → Option (List Char)
  | [], cs => some cs
  | _ :: _, [] => none
  | p :: ps, c :: cs => if p == c then stripLit ps cs else none

/-- Attempt the regex `"uvresp"\s*,\s*"([^"]+)"` anchored at the head of
the list; return the captured group on success.  The character class
`[^"]+` is greedy, so the capture is the maximal run of non-quote
characters, which must be non-empty and followed by a closing quote. -/
def uvMatchAt (cs : List Char) : Option String :=
  match stripLit ("\"uvresp\"".toList) cs with
  | none => none
  | some r1 =>
    match dropWsL r1 with
    | ',' :: r3 =>
      match dropWsL r3 with
      | '"' :: r5 =>
        let grp := r5.takeWhile (fun c => !(c == '"'))
        let rest := r5.dropWhile (fun c => !(c == '"'))
        if grp.isEmpty then none
        else
          match rest with
          | '"' :: _ => some (String.mk grp)
          | _ => none
      | _ => none
    | _ => none

/-- Leftmost search for the pattern, as `re.search` does. -/
def uvSearch : List Char → Option String
  | [] => none
  | c :: cs =>
    match uvMatchAt (c :: cs) with
    | some g => some g
    | none => uvSearch cs

/-- Model of `re.search(r'"uvresp"\s*,\s*"([^"]+)"', text)` returning
the first captured group (line 48 of `async_control.py`). -/
def reSearchUvresp (s : String) : Option String :=
  uvSearch s.toList

/-- One invocation of the network-request callback: the request URL,
whether the response body could be retrieved (`request.response()` /
`response.text()` succeeded and the response was non-null), and the
body text. -/
structure HandlerEnv where
  url : String
  respOk : Bool
  text : String

/-- Model of `AsyncChallenger.request_handler` (lines 34-50).  Requests outside
the provider domains or without a reload/userverify path marker are
ignored.  Failures retrieving the body are swallowed (`suppress`).  On a
retrieved body, `dynamic` is set from a substring test; for userverify
responses without either continuation marker, the token is extracted by
`reSearchUvresp` (a failed match raises `AssertionError`, which
`suppress` swallows after `dynamic` was already written). -/
def request_handler (e : HandlerEnv) (st : CState) : CState :=
  if (!strContains "google.com" e.url && !strContains "recaptcha.net" e.url)
      || (!strContains "reload" e.url && !strContains "userverify" e.url) then st
  else if !e.respOk then st
  else
    let st1 := { st with dynamic := strContains "dynamic" e.text }
    if strContains "userverify" e.url && !strContains "rresp" e.text
        && !strContains "bgdata" e.text then
      match reSearchUvresp e.text with
      | some tok => { st1 with captcha_token := tok }
      | none => st1
    else st1

/-- Apply a batch of network-observer callbacks in order (the observer
may fire at any await point of the state machine). -/
def applyEvents (es : List HandlerEnv) (st : CState) : CState :=
  es.foldl (fun s e => request_handler e s) st

/-- Outcome of one in-page JavaScript evaluation: `Except.error` models
a raised `PlaywrightError`, `Except.ok` a returned string. -/
abbrev PEval := Except Unit String

/-- Model of `AsyncChallenger.check_result` (lines 52-61): try the standard
accessor; on a `PlaywrightError` fall back to the enterprise accessor;
if both raise, return `None`. -/
def check_result (std ent : PEval) : Option String :=
  match std with
  | Except.ok t => some t
  | Except.error _ =>
    match ent with
    | Except.ok t => some t
    | Except.error _ => none

/-- Python truthiness of an `Option String` value (`None` and `""` are
falsy). -/
def optTruthy : Option String → Bool
  | some s => s != ""
  | none => false

/-- A `Union[str, bool]` return value of the challenge methods. -/
inductive Res where
  | str (s : String)
  | bool (b : Bool)
deriving DecidableEq

/-- Python truthiness of a `Union[str, bool]` value. -/
def truthy : Res → Bool
  | Res.str s => s != ""
  | Res.bool b => b

/-- Exceptions the embedded methods can propagate: `RecursionError`
(retry limit), `ValueError` (empty prompt), plus an artificial
out-of-fuel marker for the unbounded loops of the source. -/
inductive Exc where
  | recursion
  | value
  | fuel
deriving DecidableEq

/-- Normal return or propagated exception. -/
inductive ROut where
  | res (r : Res)
  | exc (e : Exc)
deriving DecidableEq

/-- Observable UI actions relevant to the retry transitions. -/
inductive Event where
  | cycleStart
  | reloadClick
  | verifyReloadClick
  | submitClick
deriving DecidableEq

/-- Result of running (part of) the state machine: the returned value or
exception, the final field state, the emitted UI events in order, and
the next unused cycle index of the environment stream. -/
structure RunOut where
  out : ROut
  st : CState
  trace : List Event
  nxt : Nat
deriving DecidableEq

/-- Environment data consumed by one invocation of `handle_recaptcha`:
whether reading the challenge label raised `TimeoutError`; the two page
evaluations `check_result` would perform on that failure path; the
prompt text (a `None` text content is modelled as `""`, which Python
treats identically via `if not prompt`); the stream of tile counts seen
by the grid-polling loop (`counts 0` is the initial fetch, `counts
(i+1)` the fetch after the i-th 1-second wait); the network-observer
callbacks that fire before the detection step; the classifier outcome
`any(response)` of the initial `detect_tiles` call; the classifier
outcomes of the successive verify-mode calls inside the dynamic loop;
the observer callbacks firing before each token poll; and the page
evaluations `check_result` would perform at each token poll. -/
structure CycleEnv where
  labelTimeout : Bool
  frameFailEval : PEval × PEval
  prompt : String
  counts : Nat → Nat
  preDetectEvents : List HandlerEnv
  detInit : Bool
  detLoop : Nat → Bool
  pollEvents : Nat → List HandlerEnv
  pollPageEval : Nat → PEval × PEval

/-- The grid-polling loop of `handle_recaptcha` (lines 136-143): check
the current tile count; if it is 9 or 16 stop, otherwise wait 1 s and
fetch again, up to `fuel` (= 10 in the source) iterations.  Returns the
tile count the loop leaves behind. -/
def gridPoll (counts : Nat → Nat) : Nat → Nat → Nat
  | 0, i => counts i
  | fuel + 1, i => if counts i = 9 ∨ counts i = 16 then counts i else gridPoll counts fuel (i + 1)

/-- The tile count left after the 10-round polling loop. -/
def gridFinal (counts : Nat → Nat) : Nat :=
  gridPoll counts 10 0

/-- The decision `area_captcha = len(recaptcha_tiles) == 16` (line 146). -/
def areaOf (counts : Nat → Nat) : Bool :=
  gridFinal counts == 16

/-- The dynamic follow-up loop of `handle_recaptcha` (lines 150-152):
`while not_yet_passed:` wait 5 s and re-run the detector in verify
mode.  In verify mode `detect_tiles` returns `True` when the classifier
reported matches (tiles were clicked) and `False` when it reported none,
so each iteration replaces the value with `Res.bool (det i)`.  `none`
means the fuel ran out while the loop condition was still truthy. -/
def dynLoop (det : Nat → Bool) : Nat → Nat → Res → Option Res
  | 0, _, v => if truthy v then none else some v
  | fuel + 1, i, v => if truthy v then dynLoop det fuel (i + 1) (Res.bool (det i)) else some v

/-- The post-submit token wait of `handle_recaptcha` (lines 168-172):
up to 5 polls; at each, observer callbacks may have fired, then
`self.captcha_token` is tested for truthiness, then `check_result()` is
consulted; the first truthy value is returned. -/
def pollLoop (pe : Nat → List HandlerEnv) (pt : Nat → PEval × PEval) :
    Nat → Nat → CState → Option String × CState
  | 0, _, st => (none, st)
  | n + 1, i, st =>
    let st1 := applyEvents (pe i) st
    if st1.captcha_token != "" then (some st1.captcha_token, st1)
    else
      match check_result (pt i).1 (pt i).2 with
      | some s =>
        if s != "" then (some s, st1) else pollLoop pe pt n (i + 1) st1
      | none => pollLoop pe pt n (i + 1) st1

/-- Model of `AsyncChallenger.retry` (lines 99-115) up to the recursive
re-invocation of `handle_recaptcha`: increment `retried`; raise
`RecursionError` if it reached `retry_times`; otherwise reset `dynamic`
and `captcha_token` and click the reload control (`#recaptcha-verify-button`
when `verify` else `#recaptcha-reload-button`). -/
def retryStep (st : CState) (verify : Bool) : Option Exc × CState × List Event :=
  let st1 := { st with retried := st.retried + 1 }
  if st1.retry_times ≤ st1.retried then (some Exc.recursion, st1, [])
  else
    let st2 := { st1 with dynamic := false, captcha_token := "" }
    (none, st2, [if verify then Event.verifyReloadClick else Event.reloadClick])

/-- The retry tail of `handle_recaptcha` after the token wait is
exhausted (lines 174-177): increment `retried` and raise
`RecursionError` at the limit; no field reset, no reload click. -/
def afterPollsExhausted (st : CState) : Option Exc × CState :=
  let st1 := { st with retried := st.retried + 1 }
  if st1.retry_times ≤ st1.retried then (some Exc.recursion, st1) else (none, st1)

/-- Outcome of the initial `detect_tiles` call (line 147, with
`verify = area_captcha`): either a terminal exception from `retry`, a
value to continue the cycle with, or a request to re-enter
`handle_recaptcha` (the `return await self.retry(...)` path, whose
result flows back as `not_yet_passed`). -/
inductive DetOut where
  | term (out : ROut) (st : CState) (tr : List Event)
  | val (v : Res) (st : CState) (tr : List Event)
  | recurThen (st : CState) (tr : List Event)

/-- Model of `AsyncChallenger.detect_tiles` (lines 81-97) for the initial pass:
with matches, tiles are clicked and `True` is returned; with no matches
and `verify = area` true, `False` is returned; with no matches and
`verify` false, `retry(captcha_frame, verify=False)` runs. -/
def detPhase (detInit : Bool) (area : Bool) (st : CState) : DetOut :=
  if detInit then DetOut.val (Res.bool true) st []
  else if area then DetOut.val (Res.bool false) st []
  else
    match retryStep st false with
    | (some e, st2, evs) => DetOut.term (ROut.exc e) st2 evs
    | (none, st2, evs) => DetOut.recurThen st2 evs

/-- Continuation request produced by the tail of one cycle. -/
inductive TailOut where
  | done (out : ROut) (st : CState) (tr : List Event)
  | rerun (st : CState) (tr : List Event)

/-- Lines 149-152 of `handle_recaptcha`: the dynamic loop runs exactly
when `self.dynamic and not area_captcha`; otherwise `not_yet_passed`
flows through unchanged. -/
def dynPhase (env : CycleEnv) (area : Bool) (v : Res) (st : CState) (fuel : Nat) : Option Res :=
  if st.dynamic && !area then dynLoop env.detLoop fuel 0 v else some v

/-- The submit/token-wait/retry tail following the (possibly skipped)
dynamic loop: return a string result directly; otherwise click the
submit button, run the 5-round token wait of `pollLoop`, and on
exhaustion increment the retry counter (raising at the limit) and
request a re-entry into `handle_recaptcha`. -/
def cycleTail (env : CycleEnv) (area : Bool) (v : Res) (st : CState) (fuel : Nat) : TailOut :=
  match dynPhase env area v st fuel with
  | none => TailOut.done (ROut.exc Exc.fuel) st []
  | some (Res.str s) => TailOut.done (ROut.res (Res.str s)) st []
  | some (Res.bool _) =>
    match pollLoop env.pollEvents env.pollPageEval 5 0 st with
    | (some tok, st2) => TailOut.done (ROut.res (Res.str tok)) st2 [Event.submitClick]
    | (none, st2) =>
      match afterPollsExhausted st2 with
      | (some e, st3) => TailOut.done (ROut.exc e) st3 [Event.submitClick]
      | (none, st3) => TailOut.rerun st3 [Event.submitClick]

/-- Model of `AsyncChallenger.handle_recaptcha` (lines 117-179), fuel-indexed.
Cycle `cyc` consumes `envs cyc`; recursive re-entries consume fresh
cycle indices, and `RunOut.nxt` reports the next unused one.  On
`TimeoutError` while reading the label, `check_result()` alone is
consulted (line 129) and its truthy value returned, else `False`; an
empty prompt raises `ValueError` (uncaught, line 125); otherwise the
grid is polled, the detector invoked, the dynamic loop possibly run,
and the submit/token-wait/retry tail executed. -/
def handleRecaptcha (envs : Nat → CycleEnv) : Nat → Nat → CState → RunOut
  | 0, cyc, st => { out := ROut.exc Exc.fuel, st := st, trace := [], nxt := cyc }
  | fuel + 1, cyc, st =>
    let env := envs cyc
    if env.labelTimeout then
      match check_result env.frameFailEval.1 env.frameFailEval.2 with
      | some s =>
        if s != "" then
          { out := ROut.res (Res.str s), st := st, trace := [Event.cycleStart], nxt := cyc + 1 }
        else
          { out := ROut.res (Res.bool false), st := st, trace := [Event.cycleStart], nxt := cyc + 1 }
      | none =>
        { out := ROut.res (Res.bool false), st := st, trace := [Event.cycleStart], nxt := cyc + 1 }
    else if env.prompt = "" then
      { out := ROut.exc Exc.value, st := st, trace := [Event.cycleStart], nxt := cyc + 1 }
    else
      let st1 := applyEvents env.preDetectEvents st
      let area := areaOf env.counts
      match detPhase env.detInit area st1 with
      | DetOut.term out st2 tr =>
        { out := out, st := st2, trace := Event.cycleStart :: tr, nxt := cyc + 1 }
      | DetOut.val v st2 tr =>
        match cycleTail env area v st2 fuel with
        | TailOut.done out st3 tr2 =>
          { out := out, st := st3, trace := Event.cycleStart :: (tr ++ tr2), nxt := cyc + 1 }
        | TailOut.rerun st3 tr2 =>
          let r := handleRecaptcha envs fuel (cyc + 1) st3
          { out := r.out, st := r.st,
            trace := Event.cycleStart :: (tr ++ tr2 ++ r.trace), nxt := r.nxt }
      | DetOut.recurThen st2 tr =>
        let r := handleRecaptcha envs fuel (cyc + 1) st2
        match r.out with
        | ROut.exc e =>
          { out := ROut.exc e, st := r.st,
            trace := Event.cycleStart :: (tr ++ r.trace), nxt := r.nxt }
        | ROut.res v =>
          match cycleTail env area v r.st fuel with
          | TailOut.done out st3 tr2 =>
            { out := out, st := st3,
              trace := Event.cycleStart :: (tr ++ r.trace ++ tr2), nxt := r.nxt }
          | TailOut.rerun st3 tr2 =>
            let r2 := handleRecaptcha envs fuel r.nxt st3
            { out := r2.out, st := r2.st,
              trace := Event.cycleStart :: (tr ++ r.trace ++ tr2 ++ r2.trace), nxt := r2.nxt }

/-- Environment of one `solve_recaptcha` call: whether the challenge
label became visible within 10 s, and the per-cycle environments. -/
structure SolveEnv where
  visible : Bool
  cycles : Nat → CycleEnv

/-- The field reset at `solve_recaptcha` entry (lines 190-192). -/
def solveEntryReset (st : CState) : CState :=
  { st with dynamic := false, captcha_token := "" }

/-- Model of `AsyncChallenger.solve_recaptcha` (lines 181-200): reset `dynamic`
and `captcha_token`, click the checkbox (best effort, no modelled
effect), return `False` if the challenge never becomes visible, else
run `handle_recaptcha`. -/
def solveRecaptcha (env : SolveEnv) (st : CState) (fuel : Nat) : RunOut :=
  let st1 := solveEntryReset st
  if !env.visible then { out := ROut.res (Res.bool false), st := st1, trace := [], nxt := 0 }
  else handleRecaptcha env.cycles fuel 0 st1

/-- Final state of a `TailOut`. -/
def TailOut.stOf : TailOut → CState
  | TailOut.done _ s _ => s
  | TailOut.rerun s _ => s

/-- Spec-side reading of the grid-polling loop: the list of tile counts
the loop actually observes, stopping early at a count of 9 or 16 and
otherwise exhausting the poll budget. -/
def observedFrom (counts : Nat → Nat) : Nat → Nat → List Nat
  | 0, i => [counts i]
  | fuel + 1, i =>
    if counts i = 9 ∨ counts i = 16 then [counts i]
    else counts i :: observedFrom counts fuel (i + 1)

/-- The counts observed by the 10-round polling loop of
`handle_recaptcha`, starting from the initial fetch. -/
def observedCounts (counts : Nat → Nat) : List Nat :=
  observedFrom counts 10 0

/-! ### Concrete environments for test runs -/

/-- Both page evaluations raise `PlaywrightError`. -/
def noEval : PEval × PEval := (Except.error (), Except.error ())

/-- A cycle whose label loads, whose grid shows 9 tiles, whose detector
clicks matches on the first pass, and where no token ever appears: the
token wait is exhausted and the cycle retries. -/
def cycFailPolls : CycleEnv := {
  labelTimeout := false
  frameFailEval := noEval
  prompt := "cars"
  counts := fun _ => 9
  preDetectEvents := []
  detInit := true
  detLoop := fun _ => false
  pollEvents := fun _ => []
  pollPageEval := fun _ => noEval
}

/-- A cycle in which the challenge label never resolves
(`TimeoutError`) and the page accessors raise. -/
def cycFrameTimeout : CycleEnv := { cycFailPolls with labelTimeout := true }

/-- An observer callback for a reload response whose body contains the
marker `dynamic`. -/
def hevDynamic : HandlerEnv := {
  url := "https://www.google.com/recaptcha/api2/reload?k=x"
  respOk := true
  text := "abc dynamic def"
}

/-- An observer callback for a userverify success response carrying a
token. -/
def hevToken : HandlerEnv := {
  url := "https://www.google.com/recaptcha/api2/userverify?k=x"
  respOk := true
  text := "[\"uvresp\",\"TOK99\"]"
}

/-- Like `cycFailPolls`, but the observer marks the challenge dynamic
before the detection step. -/
def cycDynFail : CycleEnv := { cycFailPolls with preDetectEvents := [hevDynamic] }

/-- A cycle in which the observer captures a token before the detection
step, but the detector then reports no matches on a non-verify pass. -/
def cycTokenThenFail : CycleEnv :=
  { cycFailPolls with preDetectEvents := [hevToken], detInit := false }

/-- A cycle whose label resolves but whose prompt text is empty. -/
def cycEmptyPrompt : CycleEnv := { cycFailPolls with prompt := "" }

/-- A cycle whose tile count never stabilises at 9 or 16. -/
def cycSeven : CycleEnv := { cycFailPolls with counts := fun _ => 7 }

/-- One failing cycle (token wait exhausted) followed by frame
timeouts. -/
def envRetryOnce : SolveEnv :=
  { visible := true, cycles := fun n => if n = 0 then cycFailPolls else cycFrameTimeout }

/-- A solve whose first cycle captures a token mid-cycle and then hits
a failed non-verify detection. -/
def envTokenLost : SolveEnv :=
  { visible := true, cycles := fun n => if n = 0 then cycTokenThenFail else cycFrameTimeout }

/-- A solve whose every cycle has an empty prompt. -/
def envEmptyPrompt : SolveEnv := { visible := true, cycles := fun _ => cycEmptyPrompt }

/-! ### State-preservation helper lemmas -/

theorem request_handler_retried (e : HandlerEnv) (st : CState) :
    (request_handler e st).retried = st.retried := by
  unfold request_handler
  split
  · rfl
  split
  · rfl
  dsimp only
  split
  · split <;> rfl
  · rfl

theorem request_handler_retry_times (e : HandlerEnv) (st : CState) :
    (request_handler e st).retry_times = st.retry_times := by
  unfold request_handler
  split
  · rfl
  split
  · rfl
  dsimp only
  split
  · split <;> rfl
  · rfl

theorem applyEvents_retried (es : List HandlerEnv) (st : CState) :
    (applyEvents es st).retried = st.retried := by
  induction es generalizing st with
  | nil => rfl
  | cons e es ih =>
    simp only [applyEvents, List.foldl_cons] at *
    rw [ih, request_handler_retried]

theorem applyEvents_retry_times (es : List HandlerEnv) (st : CState) :
    (applyEvents es st).retry_times = st.retry_times := by
  induction es generalizing st with
  | nil => rfl
  | cons e es ih =>
    simp only [applyEvents, List.foldl_cons] at *
    rw [ih, request_handler_retry_times]

theorem pollLoop_retried (pe : Nat → List HandlerEnv) (pt : Nat → PEval × PEval) :
    ∀ n i st, (pollLoop pe pt n i st).2.retried = st.retried := by
  intro n
  induction n with
  | zero => intro i st; rfl
  | succ n ih =>
    intro i st
    simp only [pollLoop]
    split
    · simp [applyEvents_retried]
    · split
      · split
        · simp [applyEvents_retried]
        · rw [ih, applyEvents_retried]
      · rw [ih, applyEvents_retried]

theorem pollLoop_retry_times (pe : Nat → List HandlerEnv) (pt : Nat → PEval × PEval) :
    ∀ n i st, (pollLoop pe pt n i st).2.retry_times = st.retry_times := by
  intro n
  induction n with
  | zero => intro i st; rfl
  | succ n ih =>
    intro i st
    simp only [pollLoop]
    split
    · simp [applyEvents_retry_times]
    · split
      · split
        · simp [applyEvents_retry_times]
        · rw [ih, applyEvents_retry_times]
      · rw [ih, applyEvents_retry_times]

theorem retryStep_raise (st : CState) (verify : Bool)
    (h : st.retry_times ≤ st.retried + 1) :
    retryStep st verify =
      (some Exc.recursion, { st with retried := st.retried + 1 }, []) := by
  simp [retryStep, h]

theorem retryStep_ok (st : CState) (verify : Bool)
    (h : st.retried + 1 < st.retry_times) :
    retryStep st verify =
      (none,
       { st with retried := st.retried + 1, dynamic := false, captcha_token := "" },
       [if verify then Event.verifyReloadClick else Event.reloadClick]) := by
  have h' : ¬ st.retry_times ≤ st.retried + 1 := by omega
  simp [retryStep, h']

theorem afterPollsExhausted_raise (st : CState)
    (h : st.retry_times ≤ st.retried + 1) :
    afterPollsExhausted st = (some Exc.recursion, { st with retried := st.retried + 1 }) := by
  simp [afterPollsExhausted, h]

theorem afterPollsExhausted_ok (st : CState)
    (h : st.retried + 1 < st.retry_times) :
    afterPollsExhausted st = (none, { st with retried := st.retried + 1 }) := by
  have h' : ¬ st.retry_times ≤ st.retried + 1 := by omega
  simp [afterPollsExhausted, h']

theorem afterPollsExhausted_snd (st : CState) :
    (afterPollsExhausted st).2 = { st with retried := st.retried + 1 } := by
  unfold afterPollsExhausted
  dsimp only
  split <;> rfl

theorem cycleTail_retry_times (env : CycleEnv) (area : Bool) (v : Res) (st : CState)
    (fuel : Nat) : (cycleTail env area v st fuel).stOf.retry_times = st.retry_times := by
  unfold cycleTail
  split
  · rfl
  · rfl
  rcases hp : pollLoop env.pollEvents env.pollPageEval 5 0 st with ⟨otok, st2⟩
  have h2 : st2.retry_times = st.retry_times := by
    have := pollLoop_retry_times env.pollEvents env.pollPageEval 5 0 st
    rw [hp] at this
    exact this
  cases otok with
  | some tok => simpa [TailOut.stOf] using h2
  | none =>
    rcases ha : afterPollsExhausted st2 with ⟨oe, st3⟩
    have h3 : st3 = { st2 with retried := st2.retried + 1 } := by
      have := afterPollsExhausted_snd st2
      rw [ha] at this
      exact this
    dsimp only
    rw [ha]
    cases oe <;> simp [TailOut.stOf, h3, h2]

theorem afterPollsExhausted_fst (st : CState) :
    (afterPollsExhausted st).1 = some Exc.recursion ∨ (afterPollsExhausted st).1 = none := by
  unfold afterPollsExhausted
  dsimp only
  split
  · exact Or.inl rfl
  · exact Or.inr rfl

theorem detPhase_term_spec (d area : Bool) (st : CState) (o : ROut) (s : CState)
    (t : List Event) (h : detPhase d area st = DetOut.term o s t) :
    o = ROut.exc Exc.recursion ∧ s = { st with retried := st.retried + 1 } ∧
      st.retry_times ≤ st.retried + 1 ∧ t = [] := by
  unfold detPhase at h
  split at h
  · cases h
  split at h
  · cases h
  by_cases hle : st.retry_times ≤ st.retried + 1
  · rw [retryStep_raise st false hle] at h
    dsimp only at h
    cases h
    exact ⟨rfl, rfl, hle, rfl⟩
  · rw [retryStep_ok st false (by omega)] at h
    dsimp only at h
    cases h

theorem detPhase_val_spec (d area : Bool) (st : CState) (v : Res) (s : CState)
    (t : List Event) (h : detPhase d area st = DetOut.val v s t) :
    s = st ∧ t = [] ∧ ∃ b, v = Res.bool b := by
  unfold detPhase at h
  split at h
  · cases h
    exact ⟨rfl, rfl, true, rfl⟩
  split at h
  · cases h
    exact ⟨rfl, rfl, false, rfl⟩
  by_cases hle : st.retry_times ≤ st.retried + 1
  · rw [retryStep_raise st false hle] at h
    dsimp only at h
    cases h
  · rw [retryStep_ok st false (by omega)] at h
    dsimp only at h
    cases h

theorem detPhase_recur_spec (d area : Bool) (st : CState) (s : CState)
    (t : List Event) (h : detPhase d area st = DetOut.recurThen s t) :
    s = { st with retried := st.retried + 1, dynamic := false, captcha_token := "" } ∧
      st.retried + 1 < st.retry_times ∧ t = [Event.reloadClick] := by
  unfold detPhase at h
  split at h
  · cases h
  split at h
  · cases h
  by_cases hle : st.retry_times ≤ st.retried + 1
  · rw [retryStep_raise st false hle] at h
    dsimp only at h
    cases h
  · rw [retryStep_ok st false (by omega)] at h
    dsimp only at h
    cases h
    refine ⟨rfl, by omega, by simp⟩

theorem cycleTail_done_not_rec (env : CycleEnv) (area : Bool) (v : Res) (st : CState)
    (fuel : Nat) (o : ROut) (s : CState) (t : List Event)
    (h : cycleTail env area v st fuel = TailOut.done o s t)
    (hnr : o ≠ ROut.exc Exc.recursion) :
    s.retried = st.retried := by
  unfold cycleTail at h
  split at h
  · cases h; rfl
  · cases h; rfl
  rcases hp : pollLoop env.pollEvents env.pollPageEval 5 0 st with ⟨otok, st2⟩
  rw [hp] at h
  have h2 : st2.retried = st.retried := by
    have := pollLoop_retried env.pollEvents env.pollPageEval 5 0 st
    rw [hp] at this
    exact this
  cases otok with
  | some tok =>
    cases h
    exact h2
  | none =>
    dsimp only at h
    by_cases hle : st2.retry_times ≤ st2.retried + 1
    · rw [afterPollsExhausted_raise st2 hle] at h
      dsimp only at h
      cases h
      simp at hnr
    · rw [afterPollsExhausted_ok st2 (by omega)] at h
      dsimp only at h
      cases h

theorem cycleTail_done_rec (env : CycleEnv) (area : Bool) (v : Res) (st : CState)
    (fuel : Nat) (s : CState) (t : List Event)
    (h : cycleTail env area v st fuel = TailOut.done (ROut.exc Exc.recursion) s t) :
    s.retried = st.retried + 1 ∧ s.retry_times ≤ s.retried := by
  unfold cycleTail at h
  split at h
  · cases h
  · cases h
  rcases hp : pollLoop env.pollEvents env.pollPageEval 5 0 st with ⟨otok, st2⟩
  rw [hp] at h
  have h2 : st2.retried = st.retried := by
    have := pollLoop_retried env.pollEvents env.pollPageEval 5 0 st
    rw [hp] at this
    exact this
  cases otok with
  | some tok => cases h
  | none =>
    dsimp only at h
    by_cases hle : st2.retry_times ≤ st2.retried + 1
    · rw [afterPollsExhausted_raise st2 hle] at h
      dsimp only at h
      cases h
      constructor
      · simp [h2]
      · simpa using hle
    · rw [afterPollsExhausted_ok st2 (by omega)] at h
      dsimp only at h
      cases h

theorem cycleTail_rerun_spec (env : CycleEnv) (area : Bool) (v : Res) (st : CState)
    (fuel : Nat) (s : CState) (t : List Event)
    (h : cycleTail env area v st fuel = TailOut.rerun s t) :
    s.retried = st.retried + 1 ∧ s.retried < s.retry_times ∧
      s.retry_times = st.retry_times ∧ t = [Event.submitClick] := by
  unfold cycleTail at h
  split at h
  · cases h
  · cases h
  rcases hp : pollLoop env.pollEvents env.pollPageEval 5 0 st with ⟨otok, st2⟩
  rw [hp] at h
  have h2 : st2.retried = st.retried := by
    have := pollLoop_retried env.pollEvents env.pollPageEval 5 0 st
    rw [hp] at this
    exact this
  have h2t : st2.retry_times = st.retry_times := by
    have := pollLoop_retry_times env.pollEvents env.pollPageEval 5 0 st
    rw [hp] at this
    exact this
  cases otok with
  | some tok => cases h
  | none =>
    dsimp only at h
    by_cases hle : st2.retry_times ≤ st2.retried + 1
    · rw [afterPollsExhausted_raise st2 hle] at h
      dsimp only at h
      cases h
    · rw [afterPollsExhausted_ok st2 (by omega)] at h
      dsimp only at h
      cases h
      refine ⟨by simp [h2], by simp; omega, by simp [h2t], rfl⟩

theorem cycleTail_done_no_value (env : CycleEnv) (area : Bool) (v : Res) (st : CState)
    (fuel : Nat) (o : ROut) (s : CState) (t : List Event)
    (h : cycleTail env area v st fuel = TailOut.done o s t) :
    o ≠ ROut.exc Exc.value := by
  unfold cycleTail at h
  split at h
  · cases h; simp
  · cases h; simp
  rcases hp : pollLoop env.pollEvents env.pollPageEval 5 0 st with ⟨otok, st2⟩
  rw [hp] at h
  cases otok with
  | some tok => cases h; simp
  | none =>
    dsimp only at h
    by_cases hle : st2.retry_times ≤ st2.retried + 1
    · rw [afterPollsExhausted_raise st2 hle] at h
      dsimp only at h
      cases h
      simp
    · rw [afterPollsExhausted_ok st2 (by omega)] at h
      dsimp only at h
      cases h

theorem cycleTail_retried_mono (env : CycleEnv) (area : Bool) (v : Res) (st : CState)
    (fuel : Nat) : st.retried ≤ (cycleTail env area v st fuel).stOf.retried := by
  unfold cycleTail
  split
  · exact Nat.le_refl _
  · exact Nat.le_refl _
  rcases hp : pollLoop env.pollEvents env.pollPageEval 5 0 st with ⟨otok, st2⟩
  have h2 : st2.retried = st.retried := by
    have := pollLoop_retried env.pollEvents env.pollPageEval 5 0 st
    rw [hp] at this
    exact this
  cases otok with
  | some tok =>
    simp only [TailOut.stOf]
    omega
  | none =>
    rcases ha : afterPollsExhausted st2 with ⟨oe, st3⟩
    have h3 : st3 = { st2 with retried := st2.retried + 1 } := by
      have := afterPollsExhausted_snd st2
      rw [ha] at this
      exact this
    dsimp only
    rw [ha]
    cases oe <;> simp [TailOut.stOf, h3] <;> omega


/-- Combined invariants of `handleRecaptcha`, proved by one induction on
fuel: the configured limit is never written; the retry counter never
decreases; starting below the limit it never exceeds the limit, ends
exactly at the limit iff the run raises `RecursionError`, and stays
strictly below it otherwise; and a `ValueError` can only originate from
a cycle whose label resolved but whose prompt was empty. -/
theorem handle_invariants (envs : Nat → CycleEnv) :
    ∀ fuel cyc st,
      (handleRecaptcha envs fuel cyc st).st.retry_times = st.retry_times
      ∧ st.retried ≤ (handleRecaptcha envs fuel cyc st).st.retried
      ∧ (st.retried < st.retry_times →
          ((handleRecaptcha envs fuel cyc st).st.retried ≤ st.retry_times
           ∧ ((handleRecaptcha envs fuel cyc st).out = ROut.exc Exc.recursion →
                (handleRecaptcha envs fuel cyc st).st.retried = st.retry_times)
           ∧ ((handleRecaptcha envs fuel cyc st).out ≠ ROut.exc Exc.recursion →
                (handleRecaptcha envs fuel cyc st).st.retried < st.retry_times)))
      ∧ ((handleRecaptcha envs fuel cyc st).out = ROut.exc Exc.value →
          ∃ k, (envs k).labelTimeout = false ∧ (envs k).prompt = "") := by
  intro fuel
  induction fuel with
  | zero =>
    intro cyc st
    refine ⟨rfl, Nat.le_refl _,
      fun h => ⟨Nat.le_of_lt h, by simp [handleRecaptcha], fun _ => h⟩, ?_⟩
    intro hx
    simp [handleRecaptcha] at hx
  | succ fuel ih =>
    intro cyc st
    rcases hr : handleRecaptcha envs (fuel + 1) cyc st with ⟨out, stf, tr, nx⟩
    dsimp only
    simp only [handleRecaptcha] at hr
    by_cases hlt : (envs cyc).labelTimeout = true
    · rw [if_pos hlt] at hr
      rcases hc : check_result (envs cyc).frameFailEval.1 (envs cyc).frameFailEval.2 with _ | s
      · rw [hc] at hr
        cases hr
        exact ⟨rfl, Nat.le_refl _, fun h => ⟨Nat.le_of_lt h, by simp, fun _ => h⟩, by simp⟩
      · rw [hc] at hr
        dsimp only at hr
        by_cases hs : (s != "") = true
        · rw [if_pos hs] at hr
          cases hr
          exact ⟨rfl, Nat.le_refl _, fun h => ⟨Nat.le_of_lt h, by simp, fun _ => h⟩, by simp⟩
        · rw [if_neg hs] at hr
          cases hr
          exact ⟨rfl, Nat.le_refl _, fun h => ⟨Nat.le_of_lt h, by simp, fun _ => h⟩, by simp⟩
    · rw [if_neg hlt] at hr
      by_cases hpr : (envs cyc).prompt = ""
      · rw [if_pos hpr] at hr
        cases hr
        refine ⟨rfl, Nat.le_refl _, fun h => ⟨Nat.le_of_lt h, by simp, fun _ => h⟩, ?_⟩
        intro _
        exact ⟨cyc, by simpa using hlt, hpr⟩
      · rw [if_neg hpr] at hr
        have ha1 : (applyEvents (envs cyc).preDetectEvents st).retried = st.retried :=
          applyEvents_retried _ _
        have ha2 : (applyEvents (envs cyc).preDetectEvents st).retry_times = st.retry_times :=
          applyEvents_retry_times _ _
        split at hr
        case _ o2 s2 t2 hd =>
          obtain ⟨ho2, hs2, hle, -⟩ := detPhase_term_spec _ _ _ _ _ _ hd
          cases hr
          have hs2r : stf.retried = st.retried + 1 := by rw [hs2]; simpa using ha1
          have hs2t : stf.retry_times = st.retry_times := by rw [hs2]; simpa using ha2
          subst ho2
          refine ⟨hs2t, by omega, fun h => ⟨by omega, fun _ => by omega, fun hne => ?_⟩,
            by simp⟩
          exact absurd rfl hne
        case _ v2 s2 t2 hd =>
          obtain ⟨hs2, ht2, b, hv⟩ := detPhase_val_spec _ _ _ _ _ _ hd
          split at hr
          case _ o3 s3 t3 heq =>
            cases hr
            have hm : s2.retried ≤ stf.retried := by
              have := cycleTail_retried_mono (envs cyc) (areaOf (envs cyc).counts) v2 s2 fuel
              rw [heq] at this
              exact this
            have htt : stf.retry_times = s2.retry_times := by
              have := cycleTail_retry_times (envs cyc) (areaOf (envs cyc).counts) v2 s2 fuel
              rw [heq] at this
              simpa only [TailOut.stOf] using this
            have hb1 : s2.retried = st.retried := by rw [hs2]; exact ha1
            have hb2 : s2.retry_times = st.retry_times := by rw [hs2]; exact ha2
            refine ⟨by omega, by omega, fun h => ?_,
              fun hx => absurd hx (cycleTail_done_no_value _ _ _ _ _ _ _ _ heq)⟩
            by_cases hrec : out = ROut.exc Exc.recursion
            · subst hrec
              obtain ⟨hq1, hq2⟩ := cycleTail_done_rec _ _ _ _ _ _ _ heq
              refine ⟨by omega, fun _ => by omega, fun hne => absurd rfl hne⟩
            · have hq := cycleTail_done_not_rec _ _ _ _ _ _ _ _ heq hrec
              exact ⟨by omega, fun hx => absurd hx hrec, fun _ => by omega⟩
          case _ s3 t3 heq =>
            obtain ⟨hq1, hq2, hq3, -⟩ := cycleTail_rerun_spec _ _ _ _ _ _ _ heq
            cases hr
            have hb1 : s2.retried = st.retried := by rw [hs2]; exact ha1
            have hb2 : s2.retry_times = st.retry_times := by rw [hs2]; exact ha2
            obtain ⟨i1, i2, i3, i4⟩ := ih (cyc + 1) s3
            obtain ⟨j1, j2, j3⟩ := i3 hq2
            refine ⟨by omega, by omega, fun h => ⟨by omega, fun hx => ?_, fun hx => ?_⟩, i4⟩
            · have := j2 hx
              omega
            · have := j3 hx
              omega
        case _ s2 t2 hd =>
          obtain ⟨hs2, hlt2, -⟩ := detPhase_recur_spec _ _ _ _ _ hd
          have hs2r : s2.retried = st.retried + 1 := by rw [hs2]; simpa using ha1
          have hs2t : s2.retry_times = st.retry_times := by rw [hs2]; simpa using ha2
          have hs2lt : s2.retried < s2.retry_times := by rw [hs2]; simpa using hlt2
          obtain ⟨i1, i2, i3, i4⟩ := ih (cyc + 1) s2
          obtain ⟨j1, j2, j3⟩ := i3 hs2lt
          split at hr
          case _ e heq =>
            cases hr
            refine ⟨by omega, by omega, fun h => ⟨by omega, fun hx => ?_, fun hx => ?_⟩, ?_⟩
            · have := j2 (heq.trans hx)
              omega
            · have := j3 (fun hcon => hx (heq.symm.trans hcon))
              omega
            · intro hx
              exact i4 (heq.trans hx)
          case _ v heq =>
            have hbase : (handleRecaptcha envs fuel (cyc + 1) s2).st.retried <
                (handleRecaptcha envs fuel (cyc + 1) s2).st.retry_times := by
              have := j3 (by rw [heq]; simp)
              omega
            split at hr
            case _ o5 s5 t5 heq2 =>
              cases hr
              have hm : (handleRecaptcha envs fuel (cyc + 1) s2).st.retried ≤ stf.retried := by
                have := cycleTail_retried_mono (envs cyc) (areaOf (envs cyc).counts) v
                  (handleRecaptcha envs fuel (cyc + 1) s2).st fuel
                rw [heq2] at this
                exact this
              have htt : stf.retry_times =
                  (handleRecaptcha envs fuel (cyc + 1) s2).st.retry_times := by
                have := cycleTail_retry_times (envs cyc) (areaOf (envs cyc).counts) v
                  (handleRecaptcha envs fuel (cyc + 1) s2).st fuel
                rw [heq2] at this
                simpa only [TailOut.stOf] using this
              refine ⟨by omega, by omega, fun h => ?_,
                fun hx => absurd hx (cycleTail_done_no_value _ _ _ _ _ _ _ _ heq2)⟩
              by_cases hrec : out = ROut.exc Exc.recursion
              · subst hrec
                obtain ⟨hq1, hq2⟩ := cycleTail_done_rec _ _ _ _ _ _ _ heq2
                refine ⟨by omega, fun _ => by omega, fun hne => absurd rfl hne⟩
              · have hq := cycleTail_done_not_rec _ _ _ _ _ _ _ _ heq2 hrec
                exact ⟨by omega, fun hx => absurd hx hrec, fun _ => by omega⟩
            case _ s5 t5 heq2 =>
              obtain ⟨hq1, hq2, hq3, -⟩ := cycleTail_rerun_spec _ _ _ _ _ _ _ heq2
              cases hr
              obtain ⟨k1, k2, k3, k4⟩ := ih (handleRecaptcha envs fuel (cyc + 1) s2).nxt s5
              obtain ⟨l1, l2, l3⟩ := k3 hq2
              refine ⟨by omega, by omega, fun h => ⟨by omega, fun hx => ?_, fun hx => ?_⟩, k4⟩
              · have := l2 hx
                omega
              · have := l3 hx
                omega


theorem observedFrom_ne_nil (counts : Nat → Nat) :
    ∀ fuel i, observedFrom counts fuel i ≠ [] := by
  intro fuel i
  cases fuel with
  | zero => simp [observedFrom]
  | succ fuel =>
    simp only [observedFrom]
    split <;> simp

theorem observedFrom_getLast (counts : Nat → Nat) :
    ∀ fuel i, (observedFrom counts fuel i).getLast? = some (gridPoll counts fuel i) := by
  intro fuel
  induction fuel with
  | zero => intro i; simp [observedFrom, gridPoll]
  | succ fuel ih =>
    intro i
    simp only [observedFrom, gridPoll]
    split
    · simp
    · rcases hobs : observedFrom counts fuel (i + 1) with _ | ⟨c, cs⟩
      · exact absurd hobs (observedFrom_ne_nil counts fuel (i + 1))
      · rw [List.getLast?_cons_cons, ← hobs, ih]

/-- The last count the polling loop observes is exactly the count the
loop leaves behind for the `area_captcha` decision. -/
theorem observedCounts_getLast (counts : Nat → Nat) :
    (observedCounts counts).getLast? = some (gridFinal counts) :=
  observedFrom_getLast counts 10 0

/-- Whenever the dynamic loop terminates, the value it leaves behind is
falsy: the loop exits exactly on the detector's boolean-false signal
(or an initial falsy value), never on a truthy one. -/
theorem dynLoop_exit_falsy (det : Nat → Bool) :
    ∀ fuel i v v', dynLoop det fuel i v = some v' → truthy v' = false := by
  intro fuel
  induction fuel with
  | zero =>
    intro i v v' h
    simp only [dynLoop] at h
    split at h
    · cases h
    · next hf =>
      cases h
      simpa using hf
  | succ fuel ih =>
    intro i v v' h
    simp only [dynLoop] at h
    split at h
    · exact ih _ _ _ h
    · next hf =>
      cases h
      simpa using hf

/-- If the detector keeps reporting a truthy signal, the dynamic loop
never terminates (it consumes any amount of fuel). -/
theorem dynLoop_diverges (det : Nat → Bool) :
    ∀ fuel i v, truthy v = true → (∀ j, det j = true) → dynLoop det fuel i v = none := by
  intro fuel
  induction fuel with
  | zero =>
    intro i v hv _
    simp [dynLoop, hv]
  | succ fuel ih =>
    intro i v hv hall
    simp only [dynLoop, hv, if_pos]
    exact ih (i + 1) (Res.bool (det i)) (by simp [truthy, hall i]) hall

/-- When the challenge label fails to resolve, `handle_recaptcha`
consults only `check_result()` (the page response accessors), returns
its truthy value or `False`, and leaves the whole field state — in
particular `retried` and `captcha_token` — untouched. -/
theorem handle_frame_timeout (envs : Nat → CycleEnv) (fuel cyc : Nat) (st : CState)
    (h : (envs cyc).labelTimeout = true) (hf : 0 < fuel) :
    handleRecaptcha envs fuel cyc st =
      { out :=
          match check_result (envs cyc).frameFailEval.1 (envs cyc).frameFailEval.2 with
          | some s => if s != "" then ROut.res (Res.str s) else ROut.res (Res.bool false)
          | none => ROut.res (Res.bool false),
        st := st, trace := [Event.cycleStart], nxt := cyc + 1 } := by
  cases fuel with
  | zero => omega
  | succ fuel =>
    simp only [handleRecaptcha]
    rw [if_pos h]
    rcases check_result (envs cyc).frameFailEval.1 (envs cyc).frameFailEval.2 with _ | s
    · rfl
    · dsimp only
      split <;> rfl

theorem solve_retried_mono (env : SolveEnv) (st : CState) (fuel : Nat) :
    st.retried ≤ (solveRecaptcha env st fuel).st.retried := by
  unfold solveRecaptcha solveEntryReset
  dsimp only
  split
  · exact Nat.le_refl _
  · have := (handle_invariants env.cycles fuel 0
      { st with dynamic := false, captcha_token := "" }).2.1
    simpa using this

theorem solve_value_origin (env : SolveEnv) (st : CState) (fuel : Nat)
    (h : (solveRecaptcha env st fuel).out = ROut.exc Exc.value) :
    ∃ k, (env.cycles k).labelTimeout = false ∧ (env.cycles k).prompt = "" := by
  unfold solveRecaptcha solveEntryReset at h
  dsimp only at h
  split at h
  · cases h
  · exact (handle_invariants env.cycles fuel 0 _).2.2.2 h


/-! ### Claim theorems -/

/-- C1 counterexample: in a session constructed with `retry_times = 0`,
one token-wait-exhaustion retry drives `retried` to 1, strictly above
`retry_times`, while the fatal error is raised — so "never exceeds
`retry_times`" fails for that session. -/
theorem c1_retried_exceeds_zero_limit :
    (handleRecaptcha (fun _ => cycFailPolls) 3 0 ⟨0, 0, false, ""⟩).st.retried = 1
    ∧ (handleRecaptcha (fun _ => cycFailPolls) 3 0 ⟨0, 0, false, ""⟩).st.retry_times = 0
    ∧ (handleRecaptcha (fun _ => cycFailPolls) 3 0 ⟨0, 0, false, ""⟩).out
        = ROut.exc Exc.recursion := by
  decide

/-- C1 (amended): for every call of `handle_recaptcha` that starts with
`retried < retry_times` (in particular any fresh session with
`retry_times ≥ 1`), `retried` is monotonically non-decreasing and never
exceeds `retry_times`; it ends exactly at `retry_times` iff the run
raises the fatal retry-limit error (on both retry paths), and a token
is never returned from a call in which the limit was reached. -/
theorem c1_retry_counter_bounded (envs : Nat → CycleEnv) (fuel cyc : Nat) (st : CState)
    (h : st.retried < st.retry_times) :
    st.retried ≤ (handleRecaptcha envs fuel cyc st).st.retried
    ∧ (handleRecaptcha envs fuel cyc st).st.retried ≤ st.retry_times
    ∧ ((handleRecaptcha envs fuel cyc st).out = ROut.exc Exc.recursion →
        (handleRecaptcha envs fuel cyc st).st.retried = st.retry_times)
    ∧ ((handleRecaptcha envs fuel cyc st).out ≠ ROut.exc Exc.recursion →
        (handleRecaptcha envs fuel cyc st).st.retried < st.retry_times)
    ∧ (∀ s, (handleRecaptcha envs fuel cyc st).out = ROut.res (Res.str s) →
        (handleRecaptcha envs fuel cyc st).st.retried < st.retry_times) := by
  obtain ⟨i1, i2, i3, i4⟩ := handle_invariants envs fuel cyc st
  obtain ⟨j1, j2, j3⟩ := i3 h
  exact ⟨i2, j1, j2, j3, fun s hs => j3 (by rw [hs]; simp)⟩

/-- C1 witness: the bound instantiated on a concrete failing run. -/
theorem c1_retry_counter_bounded_witness :
    (initState 2).retried < (initState 2).retry_times
    ∧ (handleRecaptcha (fun _ => cycFailPolls) 3 0 (initState 2)).st.retried
        ≤ (initState 2).retry_times :=
  ⟨by decide,
   (c1_retry_counter_bounded (fun _ => cycFailPolls) 3 0 (initState 2) (by decide)).2.1⟩

/-- C2 counterexample: the dynamic loop `while not_yet_passed` exits as
soon as the verify-mode detector reports the boolean-false signal (here
at the very first poll), and it repeats when the detector reports the
truthy clicked/proceed signal — the opposite of the claimed polarity. -/
theorem c2_loop_exits_on_false :
    dynLoop (fun _ => false) 5 0 (Res.bool true) = some (Res.bool false)
    ∧ dynLoop (fun j => decide (j = 0)) 5 0 (Res.bool true) = some (Res.bool false)
    ∧ truthy (Res.bool false) = false := by
  decide

/-- C2 (amended): the dynamic polling loop waits 5 s and re-invokes the
detector in verify mode, repeating exactly while the current result is
truthy (tiles clicked / proceed) and terminating exactly on a falsy
result (the detector's boolean-false "no more matches" signal); with an
always-truthy detector stream it never terminates. -/
theorem c2_loop_polarity (det : Nat → Bool) (fuel i : Nat) (v : Res) :
    (∀ v', dynLoop det fuel i v = some v' → truthy v' = false)
    ∧ (truthy v = true → (∀ j, det j = true) → dynLoop det fuel i v = none) :=
  ⟨fun v' h => dynLoop_exit_falsy det fuel i v v' h,
   fun hv hall => dynLoop_diverges det fuel i v hv hall⟩

/-- C2 witness: both halves instantiated on concrete detector streams. -/
theorem c2_loop_polarity_witness :
    truthy (Res.bool false) = false
    ∧ dynLoop (fun _ => true) 7 0 (Res.bool true) = none :=
  ⟨(c2_loop_polarity (fun _ => false) 5 0 (Res.bool true)).1 (Res.bool false) (by decide),
   (c2_loop_polarity (fun _ => true) 7 0 (Res.bool true)).2 (by decide) (fun _ => rfl)⟩

/-- C3 counterexample: a retry triggered by token-wait exhaustion.  The
retry counter rises to 1 (a retry transition happened) and the cycle
restarts, yet `dynamic` is still `true`, and no reload control of
either kind is ever clicked: the exhaustion path neither resets the
fields nor clicks a reload button. -/
theorem c3_poll_retry_no_reset :
    (handleRecaptcha (fun n => if n = 0 then cycDynFail else cycFrameTimeout) 6 0
        (initState 2)).st.retried = 1
    ∧ (handleRecaptcha (fun n => if n = 0 then cycDynFail else cycFrameTimeout) 6 0
        (initState 2)).st.dynamic = true
    ∧ (handleRecaptcha (fun n => if n = 0 then cycDynFail else cycFrameTimeout) 6 0
        (initState 2)).trace = [Event.cycleStart, Event.submitClick, Event.cycleStart]
    ∧ Event.reloadClick ∉ (handleRecaptcha (fun n => if n = 0 then cycDynFail
        else cycFrameTimeout) 6 0 (initState 2)).trace
    ∧ Event.verifyReloadClick ∉ (handleRecaptcha (fun n => if n = 0 then cycDynFail
        else cycFrameTimeout) 6 0 (initState 2)).trace := by
  decide

/-- C3 (amended): only the no-match-detection retry path
(`AsyncChallenger.retry`) resets `dynamic` and `captcha_token` and
clicks a reload control (`#recaptcha-reload-button`, or
`#recaptcha-verify-button` in verify mode) before the cycle re-runs;
the token-wait-exhaustion retry path only increments the counter,
leaving every other field untouched and clicking nothing. -/
theorem c3_retry_transition (st : CState) (verify : Bool)
    (h : st.retried + 1 < st.retry_times) :
    retryStep st verify =
      (none, { st with retried := st.retried + 1, dynamic := false, captcha_token := "" },
       [if verify then Event.verifyReloadClick else Event.reloadClick])
    ∧ (afterPollsExhausted st).2 = { st with retried := st.retried + 1 } :=
  ⟨retryStep_ok st verify h, afterPollsExhausted_snd st⟩

/-- C3 witness: the retry transition instantiated on a fresh session. -/
theorem c3_retry_transition_witness :
    (initState 5).retried + 1 < (initState 5).retry_times
    ∧ retryStep (initState 5) false =
        (none, { retry_times := 5, retried := 1, dynamic := false, captcha_token := "" },
         [Event.reloadClick]) :=
  ⟨by decide, by
    rw [(c3_retry_transition (initState 5) false (by decide)).1]
    decide⟩

/-- C4 counterexample: inside one `solve_recaptcha` invocation, the
observer captures the token "TOK99" mid-cycle, a failed non-verify
detection then triggers `retry`, and `retry` resets `captcha_token` to
`""` — a second reset within the same solve call, losing the captured
token (the reload click in the trace marks the retry). -/
theorem c4_token_lost_in_retry :
    (applyEvents [hevToken] (initState 5)).captcha_token = "TOK99"
    ∧ (solveRecaptcha envTokenLost (initState 5) 6).st.captcha_token = ""
    ∧ (solveRecaptcha envTokenLost (initState 5) 6).st.retried = 2
    ∧ Event.reloadClick ∈ (solveRecaptcha envTokenLost (initState 5) 6).trace
    ∧ (solveRecaptcha envTokenLost (initState 5) 6).out = ROut.res (Res.bool false) := by
  decide

/-- C4 (amended): `captcha_token` and `dynamic` are reset at
`solve_recaptcha` entry (leaving `retried` alone), and additionally by
every detection-failure retry (`AsyncChallenger.retry`); the
token-wait-exhaustion retry path does not reset them.  A token captured
mid-cycle therefore survives exhaustion retries but is lost across a
detection-failure retry. -/
theorem c4_reset_points (st : CState) (h : st.retried + 1 < st.retry_times) :
    (solveEntryReset st).dynamic = false
    ∧ (solveEntryReset st).captcha_token = ""
    ∧ (solveEntryReset st).retried = st.retried
    ∧ ((retryStep st false).2.1.dynamic = false
       ∧ (retryStep st false).2.1.captcha_token = "")
    ∧ ((afterPollsExhausted st).2.dynamic = st.dynamic
       ∧ (afterPollsExhausted st).2.captcha_token = st.captcha_token) := by
  refine ⟨rfl, rfl, rfl, ?_, ?_⟩
  · rw [retryStep_ok st false h]
    exact ⟨rfl, rfl⟩
  · rw [afterPollsExhausted_snd st]
    exact ⟨rfl, rfl⟩

/-- C4 witness: the reset points instantiated on a fresh session. -/
theorem c4_reset_points_witness :
    (initState 5).retried + 1 < (initState 5).retry_times
    ∧ (solveEntryReset (initState 5)).captcha_token = ""
    ∧ (retryStep (initState 5) false).2.1.captcha_token = "" :=
  ⟨by decide, (c4_reset_points (initState 5) (by decide)).2.1,
   (c4_reset_points (initState 5) (by decide)).2.2.2.1.2⟩

/-- C5: for an observed userverify response (provider domain, endpoint
marker, body retrieved): when the body contains neither continuation
marker and the token pattern matches, `captcha_token` becomes the
captured group; when the body contains a continuation marker,
`captcha_token` is not mutated. -/
theorem c5_observer_token (e : HandlerEnv) (st : CState)
    (hdom : strContains "google.com" e.url = true ∨ strContains "recaptcha.net" e.url = true)
    (huv : strContains "userverify" e.url = true)
    (hok : e.respOk = true) :
    (∀ g, strContains "rresp" e.text = false → strContains "bgdata" e.text = false →
        reSearchUvresp e.text = some g → (request_handler e st).captcha_token = g)
    ∧ ((strContains "rresp" e.text = true ∨ strContains "bgdata" e.text = true) →
        (request_handler e st).captcha_token = st.captcha_token) := by
  have hfilter : ((!strContains "google.com" e.url && !strContains "recaptcha.net" e.url)
      || (!strContains "reload" e.url && !strContains "userverify" e.url)) = false := by
    rcases hdom with h | h <;> simp [h, huv]
  constructor
  · intro g hrr hbg hm
    unfold request_handler
    rw [if_neg (by simp [hfilter]), if_neg (by simp [hok])]
    dsimp only
    rw [if_pos (by simp [huv, hrr, hbg]), hm]
  · intro hmark
    unfold request_handler
    rw [if_neg (by simp [hfilter]), if_neg (by simp [hok])]
    dsimp only
    rw [if_neg (by rcases hmark with h | h <;> simp [h])]

/-- C5 witness: a concrete success body yields the captured token, and
a concrete continuation body leaves the token unchanged. -/
theorem c5_observer_token_witness :
    strContains "google.com" hevToken.url = true
    ∧ strContains "userverify" hevToken.url = true
    ∧ hevToken.respOk = true
    ∧ strContains "rresp" hevToken.text = false
    ∧ strContains "bgdata" hevToken.text = false
    ∧ reSearchUvresp hevToken.text = some "TOK99"
    ∧ (request_handler hevToken (initState 5)).captcha_token = "TOK99"
    ∧ (request_handler { hevToken with text := "a rresp b" }
        (initState 5)).captcha_token = (initState 5).captcha_token :=
  ⟨by decide, by decide, by decide, by decide, by decide, by decide,
   (c5_observer_token hevToken (initState 5) (Or.inl (by decide)) (by decide)
      (by decide)).1 "TOK99" (by decide) (by decide) (by decide),
   (c5_observer_token { hevToken with text := "a rresp b" } (initState 5)
      (Or.inl (by decide)) (by decide) (by decide)).2 (Or.inl (by decide))⟩

/-- C6: the area variant is selected iff the last count the polling
loop observed equals 16 (early-stopping at 9 or 16, else the count
after the tenth poll); and with a terminal count that is neither 9 nor
16 the cycle still proceeds to detection and submission. -/
theorem c6_area_selection (counts : Nat → Nat) :
    (areaOf counts = true ↔ (observedCounts counts).getLast? = some 16)
    ∧ Event.submitClick ∈ (handleRecaptcha (fun n => if n = 0 then cycSeven
        else cycFrameTimeout) 6 0 (initState 3)).trace := by
  constructor
  · rw [observedCounts_getLast]
    simp [areaOf]
  · decide

/-- C7 counterexample: the label times out while the observer-captured
field holds the token "tok" and the page accessors raise; the claim
requires that token to be returned as success, but the code returns
`False`, never consulting `captcha_token`. -/
theorem c7_captured_token_ignored :
    (⟨15, 0, false, "tok"⟩ : CState).captcha_token = "tok"
    ∧ (handleRecaptcha (fun _ => cycFrameTimeout) 5 0
        ⟨15, 0, false, "tok"⟩).out = ROut.res (Res.bool false)
    ∧ (handleRecaptcha (fun _ => cycFrameTimeout) 5 0
        ⟨15, 0, false, "tok"⟩).st.retried = 0 := by
  decide

/-- C7 (amended): when the label fails to resolve, the cycle consults
only the page response-accessor API (`check_result`), returning its
truthy value as success and `False` otherwise — the observer-captured
`captcha_token` field is not consulted — and no retry is consumed (the
whole field state is returned unchanged). -/
theorem c7_frame_timeout_path (envs : Nat → CycleEnv) (fuel cyc : Nat) (st : CState)
    (h : (envs cyc).labelTimeout = true) (hf : 0 < fuel) :
    (handleRecaptcha envs fuel cyc st).st = st
    ∧ (handleRecaptcha envs fuel cyc st).out =
        (match check_result (envs cyc).frameFailEval.1 (envs cyc).frameFailEval.2 with
         | some s => if s != "" then ROut.res (Res.str s) else ROut.res (Res.bool false)
         | none => ROut.res (Res.bool false)) := by
  rw [handle_frame_timeout envs fuel cyc st h hf]
  exact ⟨rfl, rfl⟩

/-- C7 witness: the frame-timeout path instantiated concretely. -/
theorem c7_frame_timeout_path_witness :
    ((fun _ => cycFrameTimeout) 0).labelTimeout = true
    ∧ (handleRecaptcha (fun _ => cycFrameTimeout) 4 0 (initState 7)).st = initState 7 :=
  ⟨by decide,
   (c7_frame_timeout_path (fun _ => cycFrameTimeout) 4 0 (initState 7)
      (by decide) (by decide)).1⟩

/-- C8 counterexample: a resolved frame with an empty prompt makes
`solve_recaptcha` surface `ValueError` — an exception that is neither
the boolean `false` result nor the retry-limit error, escaping the
claimed failure taxonomy. -/
theorem c8_value_error_escapes :
    (solveRecaptcha envEmptyPrompt (initState 5) 9).out = ROut.exc Exc.value
    ∧ ROut.exc Exc.value ≠ ROut.exc Exc.recursion
    ∧ (∀ b, ROut.exc Exc.value ≠ ROut.res (Res.bool b)) := by
  decide

/-- C8 (amended): besides the `false` result and the retry-limit
error, exactly one further failure escapes `solve_recaptcha`: the
`ValueError` raised when a cycle's frame resolves (`labelTimeout`
false) but its prompt is empty — any `ValueError` outcome originates
from such a cycle. -/
theorem c8_value_error_origin (env : SolveEnv) (st : CState) (fuel : Nat)
    (h : (solveRecaptcha env st fuel).out = ROut.exc Exc.value) :
    ∃ k, (env.cycles k).labelTimeout = false ∧ (env.cycles k).prompt = "" :=
  solve_value_origin env st fuel h

/-- C8 witness: the origin property instantiated on the empty-prompt
environment. -/
theorem c8_value_error_origin_witness :
    (solveRecaptcha envEmptyPrompt (initState 5) 9).out = ROut.exc Exc.value
    ∧ ∃ k, (envEmptyPrompt.cycles k).labelTimeout = false
        ∧ (envEmptyPrompt.cycles k).prompt = "" :=
  ⟨by decide, c8_value_error_origin envEmptyPrompt (initState 5) 9 (by decide)⟩

/-- C9: `retried` is set only at construction; `solve_recaptcha` entry
resets `dynamic`/`captcha_token` but not `retried`, no run ever
decreases it, and concretely a second `solve_recaptcha` call on the
same instance (after one failed cycle with `retry_times = 2`) hits the
fatal retry-limit error on an environment on which a fresh instance
would merely return `False`. -/
theorem c9_retried_persists :
    (∀ st : CState, (solveEntryReset st).retried = st.retried)
    ∧ (∀ (env : SolveEnv) (st : CState) (fuel : Nat),
        st.retried ≤ (solveRecaptcha env st fuel).st.retried)
    ∧ (initState 2).retried = 0
    ∧ (solveRecaptcha envRetryOnce (initState 2) 6).out = ROut.res (Res.bool false)
    ∧ (solveRecaptcha envRetryOnce (initState 2) 6).st.retried = 1
    ∧ (solveRecaptcha envRetryOnce
        (solveRecaptcha envRetryOnce (initState 2) 6).st 6).out = ROut.exc Exc.recursion
    ∧ (solveRecaptcha envRetryOnce (initState 2) 6).out ≠ ROut.exc Exc.recursion := by
  refine ⟨fun st => rfl, fun env st fuel => solve_retried_mono env st fuel,
    by decide, by decide, by decide, by decide, by decide⟩

/-- C10: `check_result` returns the standard accessor's value whenever
that evaluation succeeds — even the empty string — consults the
enterprise accessor only when the standard one raises, and returns
`None` when both raise. -/
theorem c10_check_result_order (t : String) (ent : PEval) :
    check_result (Except.ok t) ent = some t
    ∧ check_result (Except.ok "") ent = some ""
    ∧ check_result (Except.error ()) ent =
        (match ent with
         | Except.ok s => some s
         | Except.error _ => none) := by
  refine ⟨rfl, rfl, ?_⟩
  cases ent <;> rfl

end Recognizer
